import Mathlib

/-!
Verification of the OCR Recognition System specification against a shallow
embedding of the repository's source code.

Each section embeds one module's relevant functions:
* `Security` — `src/utils/security.py`
* `Config` — `src/config.py`
* `OCRSvc` — `src/services/ocr_service.py`
* `OCRTasks` — `src/tasks/ocr_tasks.py`
* `FileSvc` — `src/services/file_service.py`
* `AuthSvc` — `src/services/auth_service.py` and `src/init_admin.py`
* `UsersApi` — `src/api/users.py`
* `StatsTasks` — `src/tasks/stats_tasks.py` with the `UserQuota` model of
  `src/models.py`

Machine-level side effects (the ORM session, disk writes) are modelled by
explicit state passing; Python exceptions are modelled by `Except`.
-/

namespace Security

/-- The plan hierarchy table of `check_user_permissions`
(`src/utils/security.py` lines 129-133): only `free`, `premium` and
`enterprise` carry a numeric level. -/
def planHierarchy : List (String × Nat) :=
  [("free", 0), ("premium", 1), ("enterprise", 2)]

/-- `plan_hierarchy.get(p, 0)`: the level of a plan name, defaulting to 0
for any name absent from the table. -/
def planLevel (p : String) : Nat :=
  match planHierarchy.lookup p with
  | some n => n
  | none => 0

/-- `check_user_permissions(user, required_plan)`
(`src/utils/security.py` lines 127-138).  `userPlan` stands for the
`user.plan_type` attribute read by the source. -/
def check_user_permissions (userPlan : String) (requiredPlan : String) : Bool :=
  planLevel userPlan ≥ planLevel requiredPlan

/-- A JSON claim value inside a decoded token payload.  `null` models
Python `None` stored under a key. -/
inductive JsonVal
  | null
  | str (s : String)
  | num (n : Int)
  deriving DecidableEq, Repr

/-- Python `payload.get(k)`: `None` when the key is absent or its stored
value is `None`. -/
def pyGet (payload : List (String × JsonVal)) (k : String) : Option JsonVal :=
  match payload.lookup k with
  | none => none
  | some JsonVal.null => none
  | some v => some v

/-- Outcome of the external `jwt.decode` call: a payload, a `JWTError`, or
any other exception. -/
inductive JwtOutcome
  | ok (payload : List (String × JsonVal))
  | jwtError (msg : String)
  | exnError (msg : String)
  deriving Repr

/-- `verify_token(token)` (`src/utils/security.py` lines 59-72),
parametrised by the behaviour of the external `jwt.decode`.  Both
`except` clauses of the source return `None`, and a payload with no
(or a null) `sub` claim also yields `None`. -/
def verify_token (decode : String → JwtOutcome) (token : String) :
    Option (List (String × JsonVal)) :=
  match decode token with
  | JwtOutcome.ok payload =>
      match pyGet payload "sub" with
      | none => none
      | some _ => some payload
  | JwtOutcome.jwtError _ => none
  | JwtOutcome.exnError _ => none

/-- `validate_password_strength(password)` (`src/utils/security.py`
lines 153-163): length at least 8 and at least 3 of the 4 character
classes present.  Passwords are lists of characters. -/
def validate_password_strength (password : List Char) : Bool :=
  if password.length < 8 then false
  else
    let hasUpper := password.any (fun c => c.isUpper)
    let hasLower := password.any (fun c => c.isLower)
    let hasDigit := password.any (fun c => c.isDigit)
    let specials := "!@#$%^&*()_+-=[]\x7b\x7d|;:,.<>?".toList
    let hasSpecial := password.any (fun c => specials.contains c)
    (if hasUpper then 1 else 0) + (if hasLower then 1 else 0)
      + (if hasDigit then 1 else 0) + (if hasSpecial then 1 else 0) ≥ 3

end Security

namespace Config

/-- `OCR_ENGINE_PRIORITY` (`src/config.py` lines 131-135): a Python dict
from tier name to engine list, kept here as an association list in the
dict's insertion order. -/
def OCR_ENGINE_PRIORITY : List (String × List String) :=
  [("free", ["paddleocr", "tesseract", "easyocr"]),
   ("premium", ["baidu_ocr", "tencent_ocr", "aliyun_ocr", "azure_ocr"]),
   ("auto", ["baidu_ocr", "paddleocr", "tesseract"])]

/-- `SUPPORTED_FILE_TYPES` (`src/config.py` lines 138-146). -/
def SUPPORTED_FILE_TYPES : List (String × String) :=
  [(".pdf", "application/pdf"), (".png", "image/png"), (".jpg", "image/jpeg"),
   (".jpeg", "image/jpeg"), (".tiff", "image/tiff"), (".bmp", "image/bmp"),
   (".webp", "image/webp")]

/-- `settings.allowed_extensions` (`src/config.py` line 43). -/
def allowed_extensions : List String :=
  [".pdf", ".png", ".jpg", ".jpeg", ".tiff", ".bmp"]

/-- `settings.max_file_size` (`src/config.py` line 42): 50 MiB. -/
def max_file_size : Nat := 50 * 1024 * 1024

end Config

namespace PyModel

/-- A Python attribute value on an ORM instance.  `noneV` models Python
`None`; dates and datetimes are encoded as integers. -/
inductive PyVal
  | i (n : Int)
  | s (v : String)
  | q (v : ℚ)
  | noneV
  deriving DecidableEq, Repr

/-- Unwrap a string-valued attribute (modelling-only helper for code that
is unreachable because the attribute read before it raises). -/
def pyStr : PyVal → String
  | PyVal.s v => v
  | _ => ""

end PyModel

namespace OCRSvc

/-- `OCRService._select_engine(preference)` (`src/services/ocr_service.py`
lines 566-578).  `engines` is the list of keys of the `self.engines` dict
built by `_init_engines` (engine names such as `"tesseract"`).  The
source's fallback loop `for engine in OCR_ENGINE_PRIORITY:` iterates a
Python dict, i.e. its keys, so the embedding walks
`Config.OCR_ENGINE_PRIORITY.map Prod.fst`.  The truthiness test
`if preference and preference in self.engines` requires a non-empty
string. -/
def select_engine (preference : Option String) (engines : List String) :
    Except String String :=
  match preference with
  | some p =>
      if p ≠ "" ∧ p ∈ engines then Except.ok p
      else selectByPriority engines
  | none => selectByPriority engines
where
  /-- The fallback loop over the priority dict's keys, ending in
  `raise ValueError("没有可用的OCR引擎")`. -/
  selectByPriority (engines : List String) : Except String String :=
    match (Config.OCR_ENGINE_PRIORITY.map Prod.fst).find? (· ∈ engines) with
    | some k => Except.ok k
    | none => Except.error "没有可用的OCR引擎"

/-- The engine names that `_init_engines`
(`src/services/ocr_service.py` lines 70-160) can ever register as keys of
`self.engines`. -/
def registryNames : List String :=
  ["tesseract", "paddleocr", "easyocr", "baidu", "tencent", "ali", "azure"]

end OCRSvc

namespace OCRTasks

/-- The declared columns of `models.OCRTask` (`src/models.py`
lines 55-81): note there is NO `celery_task_id` (nor `completed_at`)
column. -/
structure OCRTaskRow where
  id : Nat
  file_id : Nat
  engine_type : String
  language : String
  status : String
  priority : Nat
  progress : Nat
  start_time : Option Nat
  end_time : Option Nat
  processing_time : Option ℚ
  error_message : Option String
  cost : ℚ
  options : Option String
  deriving DecidableEq, Repr

/-- Python `getattr` on an ORM-loaded `OCRTask` instance: only the
declared columns of `src/models.py` lines 55-81 resolve (`created_at` is
a server-default timestamp, modelled as `noneV`); any other name —
`celery_task_id` in particular — raises `AttributeError`, modelled as
`none`. -/
def taskGetAttr (t : OCRTaskRow) (name : String) : Option PyModel.PyVal :=
  if name = "id" then some (PyModel.PyVal.i t.id)
  else if name = "file_id" then some (PyModel.PyVal.i t.file_id)
  else if name = "engine_type" then some (PyModel.PyVal.s t.engine_type)
  else if name = "language" then some (PyModel.PyVal.s t.language)
  else if name = "status" then some (PyModel.PyVal.s t.status)
  else if name = "priority" then some (PyModel.PyVal.i t.priority)
  else if name = "progress" then some (PyModel.PyVal.i t.progress)
  else if name = "start_time" then
    some (match t.start_time with
      | some n => PyModel.PyVal.i n
      | none => PyModel.PyVal.noneV)
  else if name = "end_time" then
    some (match t.end_time with
      | some n => PyModel.PyVal.i n
      | none => PyModel.PyVal.noneV)
  else if name = "processing_time" then
    some (match t.processing_time with
      | some v => PyModel.PyVal.q v
      | none => PyModel.PyVal.noneV)
  else if name = "error_message" then
    some (match t.error_message with
      | some v => PyModel.PyVal.s v
      | none => PyModel.PyVal.noneV)
  else if name = "cost" then some (PyModel.PyVal.q t.cost)
  else if name = "created_at" then some PyModel.PyVal.noneV
  else if name = "options" then
    some (match t.options with
      | some v => PyModel.PyVal.s v
      | none => PyModel.PyVal.noneV)
  else none

/-- Outcome of `cancel_ocr_task`: the not-found and terminal branches
return error dicts (the terminal one being the spec's **Conflict** kind);
`attributeError` is an uncaught Python exception. -/
inductive CancelOutcome
  | errNotFound
  | errTerminal
  | attributeError (name : String)
  | cancelled (taskId : Nat)
  deriving DecidableEq, Repr

/-- `cancel_ocr_task(task_id)` (`src/tasks/ocr_tasks.py` lines 317-339).
`found` is the row returned by the id query (`None` when absent).  A
terminal task is rejected with `{"error": "任务已完成或已取消"}` before
any other attribute access; otherwise the source next evaluates
`if task.celery_task_id:` (line 329) — an attribute `models.OCRTask`
does not declare — so the read raises `AttributeError` before
`task.status = "cancelled"` is ever reached.  The `some _` branch is the
source's (unreachable) continuation: revoke, mark cancelled, stamp
`completed_at` (itself an undeclared name, though a setattr would
succeed as a transient instance attribute). -/
def cancel_ocr_task (found : Option OCRTaskRow) :
    Option OCRTaskRow × CancelOutcome :=
  match found with
  | none => (none, CancelOutcome.errNotFound)
  | some t =>
      if t.status ∈ ["completed", "failed", "cancelled"] then
        (some t, CancelOutcome.errTerminal)
      else
        match taskGetAttr t "celery_task_id" with
        | none => (some t, CancelOutcome.attributeError "celery_task_id")
        | some _ =>
            (some { t with status := "cancelled" },
             CancelOutcome.cancelled t.id)

end OCRTasks

namespace FileSvc

/-- Raw upload bytes, one `Nat` per byte. -/
abbrev Bytes := List Nat

/-- The magic-number table of `FileService._validate_file_content`
(`src/services/file_service.py` lines 93-101). -/
def magic_numbers : List (String × List Bytes) :=
  [(".pdf", [[0x25, 0x50, 0x44, 0x46]]),
   (".png", [[0x89, 0x50, 0x4E, 0x47]]),
   (".jpg", [[0xff, 0xd8, 0xff]]),
   (".jpeg", [[0xff, 0xd8, 0xff]]),
   (".tiff", [[0x49, 0x49, 0x2a, 0x00], [0x4d, 0x4d, 0x00, 0x2a]]),
   (".bmp", [[0x42, 0x4d]]),
   (".webp", [[0x52, 0x49, 0x46, 0x46]])]

/-- `FileService._validate_file_content(file_content, ext)`
(`src/services/file_service.py` lines 87-111): content shorter than 4
bytes is rejected; an extension absent from the table passes
(`if not expected_magic: return True`); otherwise some listed magic must
lead the content. -/
def validate_file_content (content : Bytes) (ext : String) : Bool :=
  if content.length < 4 then false
  else
    match magic_numbers.lookup ext with
    | none => true
    | some magics => magics.any (fun m => m.isPrefixOf content)

/-- Result dict of `FileService.validate_file`: `{"valid": True}` or
`{"valid": False, "error": ..., "code": ...}`. -/
inductive FileValidation
  | valid
  | invalid (error : String) (code : String)
  deriving DecidableEq, Repr

/-- `FileService.validate_file(filename, file_content)`
(`src/services/file_service.py` lines 49-85).  `ext` stands for
`Path(filename).suffix.lower()` computed by the source. -/
def validate_file (ext : String) (content : Bytes) : FileValidation :=
  if ext ∉ Config.allowed_extensions then
    FileValidation.invalid ("不支持的文件类型: " ++ ext) "UNSUPPORTED_FILE_TYPE"
  else if content.length > Config.max_file_size then
    FileValidation.invalid "文件大小超过限制: 50.0MB" "FILE_TOO_LARGE"
  else if ¬ validate_file_content content ext then
    FileValidation.invalid "文件内容与扩展名不匹配" "INVALID_FILE_CONTENT"
  else FileValidation.valid

/-- `FileService._get_file_type(filename)`
(`src/services/file_service.py` lines 29-37), at the extension level. -/
def get_file_type (ext : String) : String :=
  if ext = ".pdf" then "pdf"
  else if ext ∈ [".png", ".jpg", ".jpeg", ".tiff", ".bmp", ".webp"] then "image"
  else "unknown"

/-- `FileService._get_mime_type` (`src/services/file_service.py`
lines 39-47): for every extension in the table this agrees with
`mimetypes.guess_type`; unmapped extensions fall back to
`application/octet-stream`. -/
def get_mime_type (ext : String) : String :=
  match Config.SUPPORTED_FILE_TYPES.lookup ext with
  | some m => m
  | none => "application/octet-stream"

/-- One `File` row as created by `save_uploaded_file`
(`src/services/file_service.py` lines 155-165). -/
structure FileRow where
  id : Nat
  user_id : Nat
  filename : String
  original_filename : String
  file_path : String
  file_size : Nat
  file_type : String
  mime_type : String
  file_hash : String
  status : String
  deriving DecidableEq, Repr

/-- The persistent state touched by the upload path: the `File` table and
the on-disk objects (path, bytes). -/
structure UploadState where
  db : List FileRow
  disk : List (String × Bytes)
  deriving Repr

/-- `FileService.save_uploaded_file(db, user_id, original_filename,
file_content)` (`src/services/file_service.py` lines 113-195).

* `hashFn` stands for `calculate_file_hash` (an MD5 hex digest,
  external);
* `cleanName` stands for `sanitize_filename(original_filename)` and
  `freshName` for `generate_secure_filename(clean_filename, user_id)`
  (timestamp- and uuid-dependent);
* `ext` is `Path(clean_filename).suffix.lower()`.

The source validates, computes the hash, and returns the existing row
when one matches `(user_id, file_hash)` — before any disk write.
Otherwise it writes the bytes under the per-user directory and inserts a
row with `status="uploaded"`; the fresh row takes the next surrogate
id. -/
def save_uploaded_file (hashFn : Bytes → String)
    (cleanName freshName ext : String) (st : UploadState)
    (userId : Nat) (content : Bytes) :
    UploadState × Except String FileRow :=
  match validate_file ext content with
  | FileValidation.invalid err _ => (st, Except.error err)
  | FileValidation.valid =>
      let fileHash := hashFn content
      match st.db.find? (fun f => f.user_id == userId && f.file_hash == fileHash) with
      | some existing => (st, Except.ok existing)
      | none =>
          let path := "user_" ++ toString userId ++ "/" ++ freshName
          let row : FileRow :=
            { id := st.db.length + 1, user_id := userId,
              filename := freshName, original_filename := cleanName,
              file_path := path, file_size := content.length,
              file_type := get_file_type ext, mime_type := get_mime_type ext,
              file_hash := fileHash, status := "uploaded" }
          ({ db := st.db ++ [row], disk := st.disk ++ [(path, content)] },
           Except.ok row)

/-- The PDF magic bytes `%PDF`. -/
def pdfMagic : Bytes := [0x25, 0x50, 0x44, 0x46]

/-- A `%PDF`-led byte string one byte over the 50 MiB limit. -/
def oversizedPdf : Bytes :=
  pdfMagic ++ List.replicate (Config.max_file_size - 3) 0

end FileSvc

namespace AuthSvc

/-- `AuthService.validate_username(username)`
(`src/services/auth_service.py` lines 29-33): full match of
`^[a-zA-Z0-9_]{3,50}$`. -/
def validate_username (username : List Char) : Bool :=
  3 ≤ username.length ∧ username.length ≤ 50 ∧
    username.all (fun c => c.isAlphanum ∨ c = '_')

/-- Character class `[a-zA-Z0-9._%+-]` of the email regex's local part. -/
def emailLocalChar (c : Char) : Bool :=
  c.isAlphanum ∨ c ∈ ['.', '_', '%', '+', '-']

/-- Character class `[a-zA-Z0-9.-]` of the email regex's domain part. -/
def emailDomainChar (c : Char) : Bool :=
  c.isAlphanum ∨ c ∈ ['.', '-']

/-- `AuthService.validate_email(email)` (`src/services/auth_service.py`
lines 24-27): full match of
`^[a-zA-Z0-9._%+-]+@[a-zA-Z0-9.-]+\.[a-zA-Z]{2,}$`.  Neither class
admits `@`, so a match splits at the unique `@`; the domain must consist
of domain characters and end in a dot followed by at least two letters,
with at least one domain character before that dot. -/
def validate_email (email : List Char) : Bool :=
  match email.splitOn '@' with
  | [localPart, domain] =>
      localPart ≠ [] ∧ localPart.all emailLocalChar ∧
        domain.all emailDomainChar ∧
        (let tld := (domain.reverse.takeWhile (fun c => c ≠ '.')).reverse
         2 ≤ tld.length ∧ tld.all (fun c => c.isAlpha) ∧
           tld.length + 1 < domain.length ∧
           domain.contains '.')
  | _ => false

/-- The `User` columns of `src/models.py` lines 7-27 that the
authentication service and bootstrap read or write. -/
structure UserRow where
  id : Nat
  username : List Char
  email : List Char
  hashed_password : String
  plan_type : String
  api_quota : Nat
  is_active : Bool
  is_admin : Bool
  deriving DecidableEq, Repr

/-- The user table. -/
abbrev UserStore := List UserRow

/-- `settings.free_user_daily_quota` (`src/config.py` line 107). -/
def free_user_daily_quota : Nat := 100

/-- `settings.premium_user_daily_quota` (`src/config.py` line 108). -/
def premium_user_daily_quota : Nat := 10000

/-- `AuthService.register_user(db, username, email, password, plan_type,
is_admin)` (`src/services/auth_service.py` lines 35-105), user-table
effects.  `hashFn` stands for the external bcrypt `get_password_hash`.
Validation failures and duplicates raise `ValueError` before (or
instead of) any insert; on success the new row is appended with the next
surrogate id. -/
def register_user (hashFn : List Char → String) (db : UserStore)
    (username email password : List Char) (planType : String)
    (isAdmin : Bool) : Except String (UserStore × UserRow) :=
  if ¬ validate_username username then
    Except.error "用户名格式不正确，只能包含字母、数字、下划线，长度3-50位"
  else if ¬ validate_email email then
    Except.error "邮箱格式不正确"
  else if ¬ Security.validate_password_strength password then
    Except.error "密码强度不够，至少8位且包含大小写字母、数字、特殊字符中的3种"
  else
    match db.find? (fun u => u.username == username || u.email == email) with
    | some existing =>
        if existing.username = username then Except.error "用户名已存在"
        else Except.error "邮箱已被注册"
    | none =>
        let user : UserRow :=
          { id := db.length + 1, username := username, email := email,
            hashed_password := hashFn password, plan_type := planType,
            api_quota :=
              if planType = "free" then free_user_daily_quota
              else premium_user_daily_quota,
            is_active := true, is_admin := isAdmin }
        Except.ok (db ++ [user], user)

/-- `init_admin_user()` (`src/init_admin.py` lines 23-75), user-table
effects.  If a user named `admin` exists it is promoted to administrator
when not one already (otherwise left alone); if none exists the script
calls `register_user` with username `admin`, email
`admin@ocr-system.com`, password `123456`, plan `enterprise` and
`is_admin=True`.  A `ValueError` from registration rolls the session
back (store unchanged) and re-raises. -/
def init_admin_user (hashFn : List Char → String) (db : UserStore) :
    UserStore × Except String UserRow :=
  match db.find? (fun u => u.username == "admin".toList) with
  | some existing =>
      if ¬ existing.is_admin then
        let promoted := { existing with is_admin := true }
        (db.map (fun u => if u.id = existing.id then promoted else u),
         Except.ok promoted)
      else (db, Except.ok existing)
  | none =>
      match register_user hashFn db "admin".toList
          "admin@ocr-system.com".toList "123456".toList "enterprise" true with
      | Except.ok (db2, user) => (db2, Except.ok user)
      | Except.error e => (db, Except.error e)

end AuthSvc

namespace UsersApi

/-- `valid_plans` of the `/users/upgrade-plan` handler
(`src/api/users.py` line 350). -/
def valid_plans : List String := ["free", "basic", "premium", "enterprise"]

/-- `plan_levels` of the same handler (`src/api/users.py` line 359):
the four-level hierarchy. -/
def plan_levels : List (String × Nat) :=
  [("free", 0), ("basic", 1), ("premium", 2), ("enterprise", 3)]

/-- `plan_levels.get(p, 0)`. -/
def planLevel (p : String) : Nat :=
  match plan_levels.lookup p with
  | some n => n
  | none => 0

/-- Python `getattr` on an ORM-loaded `User` instance: only the declared
columns of `src/models.py` lines 7-27 resolve (`created_at`/`updated_at`
are server-managed timestamps, modelled as `noneV`); any other name —
`plan` in particular — raises `AttributeError`, modelled as `none`. -/
def userGetAttr (u : AuthSvc.UserRow) (name : String) :
    Option PyModel.PyVal :=
  if name = "id" then some (PyModel.PyVal.i u.id)
  else if name = "username" then some (PyModel.PyVal.s (String.mk u.username))
  else if name = "email" then some (PyModel.PyVal.s (String.mk u.email))
  else if name = "hashed_password" then
    some (PyModel.PyVal.s u.hashed_password)
  else if name = "plan_type" then some (PyModel.PyVal.s u.plan_type)
  else if name = "api_quota" then some (PyModel.PyVal.i u.api_quota)
  else if name = "is_active" then
    some (PyModel.PyVal.i (if u.is_active then 1 else 0))
  else if name = "is_admin" then
    some (PyModel.PyVal.i (if u.is_admin then 1 else 0))
  else if name = "created_at" then some PyModel.PyVal.noneV
  else if name = "updated_at" then some PyModel.PyVal.noneV
  else none

/-- Outcome of the upgrade handler: the `errInvalidPlan` rejection is an
`HTTPException(400)`; `errDowngrade`/`errSamePlan` would be the spec's
**Conflict**-kind rejections; `attributeError` is an uncaught Python
exception (surfaced as HTTP 500). -/
inductive UpgradeOutcome
  | errInvalidPlan
  | errDowngrade
  | errSamePlan
  | attributeError (name : String)
  | upgraded (newPlan : String)
  deriving DecidableEq, Repr

/-- `upgrade_user_plan(new_plan, current_user)` (`src/api/users.py`
lines 343-411).  After the valid-plans check the source evaluates
`plan_levels.get(current_user.plan, 0)` (line 360) — but `models.User`
declares `plan_type`, not `plan`, so the read raises `AttributeError`
outside any `try` block.  The `some cur` branch is the (unreachable)
continuation: the downgrade and same-plan rejections and the plan
rewrite via `auth_service.update_user_plan`.  The returned row is the
caller's `User` row after the call. -/
def upgrade_user_plan (user : AuthSvc.UserRow) (newPlan : String) :
    AuthSvc.UserRow × UpgradeOutcome :=
  if newPlan ∉ valid_plans then
    (user, UpgradeOutcome.errInvalidPlan)
  else
    match userGetAttr user "plan" with
    | none => (user, UpgradeOutcome.attributeError "plan")
    | some cur =>
        let curPlan := PyModel.pyStr cur
        if planLevel newPlan < planLevel curPlan then
          (user, UpgradeOutcome.errDowngrade)
        else if curPlan = newPlan then
          (user, UpgradeOutcome.errSamePlan)
        else
          ({ user with plan_type := newPlan },
           UpgradeOutcome.upgraded newPlan)

end UsersApi

namespace StatsTasks

/-- The `UserQuota` columns declared in `src/models.py` lines 134-148. -/
structure UserQuota where
  id : Nat
  user_id : Nat
  quota_type : String
  quota_limit : Nat
  quota_used : Nat
  reset_time : Nat
  deriving DecidableEq, Repr

/-- Python `getattr` on an ORM-loaded `UserQuota` instance: only the
declared columns of `src/models.py` lines 134-148 resolve; any other
name raises `AttributeError` (modelled as `none`).  Dates are encoded as
integers. -/
def quotaGetAttr (q : UserQuota) (name : String) : Option PyModel.PyVal :=
  if name = "id" then some (PyModel.PyVal.i q.id)
  else if name = "user_id" then some (PyModel.PyVal.i q.user_id)
  else if name = "quota_type" then some (PyModel.PyVal.s q.quota_type)
  else if name = "quota_limit" then some (PyModel.PyVal.i q.quota_limit)
  else if name = "quota_used" then some (PyModel.PyVal.i q.quota_used)
  else if name = "reset_time" then some (PyModel.PyVal.i q.reset_time)
  else none

/-- One iteration of the `update_user_quotas` loop
(`src/tasks/stats_tasks.py` lines 477-489).  The body's first operation
evaluates `quota.last_reset_date` in the comparison
`if quota.last_reset_date != datetime.now().date():`; `today` and
`firstOfMonth` encode `datetime.now().date()` and its
`.replace(day=1)`.  A successful iteration would zero
`daily_pages_used`/`monthly_pages_used` and stamp the crossed markers —
attributes that `UserQuota` does not declare, so the read raises. -/
def updateQuotaStep (today firstOfMonth : Int) (q : UserQuota)
    (updated : Nat) : Except String (UserQuota × Nat) :=
  match quotaGetAttr q "last_reset_date" with
  | none => Except.error "AttributeError: last_reset_date"
  | some lastReset =>
      let (q, updated) :=
        if lastReset ≠ PyModel.PyVal.i today then (q, updated + 1)
        else (q, updated)
      match quotaGetAttr q "monthly_reset_date" with
      | none => Except.error "AttributeError: monthly_reset_date"
      | some monthlyReset =>
          if monthlyReset ≠ PyModel.PyVal.i firstOfMonth then
            Except.ok (q, updated + 1)
          else Except.ok (q, updated)

/-- The loop of `update_user_quotas` over every quota row. -/
def updateQuotaLoop (today firstOfMonth : Int) :
    List UserQuota → Nat → Except String (List UserQuota × Nat)
  | [], updated => Except.ok ([], updated)
  | q :: rest, updated =>
      match updateQuotaStep today firstOfMonth q updated with
      | Except.error e => Except.error e
      | Except.ok (q2, updated2) =>
          match updateQuotaLoop today firstOfMonth rest updated2 with
          | Except.error e => Except.error e
          | Except.ok (rest2, updated3) => Except.ok (q2 :: rest2, updated3)

/-- Job outcome dict: `{"status": "success", "updated_quotas": n}` or
`{"status": "error", "message": e}`. -/
inductive QuotaJobResult
  | success (updatedQuotas : Nat)
  | error (message : String)
  deriving DecidableEq, Repr

/-- `update_user_quotas()` (`src/tasks/stats_tasks.py` lines 466-503):
runs the loop over all `UserQuota` rows inside a try/except; any
exception rolls the session back — leaving every row as loaded — and
returns the error outcome. -/
def update_user_quotas (today firstOfMonth : Int)
    (quotas : List UserQuota) : List UserQuota × QuotaJobResult :=
  match updateQuotaLoop today firstOfMonth quotas 0 with
  | Except.ok (quotas2, updated) => (quotas2, QuotaJobResult.success updated)
  | Except.error e => (quotas, QuotaJobResult.error e)

end StatsTasks

/-!
## Theorems

One theorem per claim of the specification, with witnesses and
counterexamples where the claim's status requires them.
-/

/-- **C9.** The plan-hierarchy gate `check_user_permissions` assigns
numeric levels only to `free` (0), `premium` (1) and `enterprise` (2);
every other plan name — including `basic`, which the `/users/upgrade-plan`
endpoint accepts as valid — is mapped to level 0.  Hence a user on the
`basic` plan passes the `free` gate but fails the `premium` and
`enterprise` gates, and any gate whose required plan is a name outside
the hierarchy table admits every user. -/
theorem c9_plan_hierarchy_gate :
    Security.planLevel "basic" = 0 ∧
    "basic" ∈ UsersApi.valid_plans ∧
    Security.check_user_permissions "basic" "free" = true ∧
    Security.check_user_permissions "basic" "premium" = false ∧
    Security.check_user_permissions "basic" "enterprise" = false ∧
    (∀ userPlan req : String, Security.planHierarchy.lookup req = none →
      Security.check_user_permissions userPlan req = true) := by
  refine ⟨by decide, by decide, by decide, by decide, by decide, ?_⟩
  intro userPlan req h
  simp [Security.check_user_permissions, Security.planLevel, h, Nat.zero_le]

/-- Witness for C9: `"basic"` itself is absent from the hierarchy table,
so a gate requiring `"basic"` admits even a `free`-plan user. -/
theorem c9_plan_hierarchy_gate_witness :
    Security.check_user_permissions "free" "basic" = true :=
  c9_plan_hierarchy_gate.2.2.2.2.2 "free" "basic" (by decide)

/-- **C10.** `verify_token` is total and returns no payload (`None`) for
expired or badly-signed tokens (any `JWTError` or other exception from
`jwt.decode`) and also for any successfully decoded payload whose claims
contain no `sub` entry; a decoded payload with a `sub` claim is returned
as-is, and no exception ever escapes to the caller. -/
theorem c10_verify_token_total (decode : String → Security.JwtOutcome)
    (t : String) :
    (∀ p, decode t = Security.JwtOutcome.ok p →
      Security.pyGet p "sub" = none →
      Security.verify_token decode t = none) ∧
    (∀ p v, decode t = Security.JwtOutcome.ok p →
      Security.pyGet p "sub" = some v →
      Security.verify_token decode t = some p) ∧
    (∀ m, decode t = Security.JwtOutcome.jwtError m →
      Security.verify_token decode t = none) ∧
    (∀ m, decode t = Security.JwtOutcome.exnError m →
      Security.verify_token decode t = none) := by
  refine ⟨?_, ?_, ?_, ?_⟩
  · intro p hdec hsub
    simp [Security.verify_token, hdec, hsub]
  · intro p v hdec hsub
    simp [Security.verify_token, hdec, hsub]
  · intro m hdec
    simp [Security.verify_token, hdec]
  · intro m hdec
    simp [Security.verify_token, hdec]

/-- Witness for C10: a validly decoded, unexpired payload holding only an
`exp` claim (no `sub`) verifies to `None`. -/
theorem c10_verify_token_total_witness :
    Security.verify_token
      (fun _ => Security.JwtOutcome.ok [("exp", Security.JsonVal.num 99)])
      "token" = none :=
  (c10_verify_token_total
      (fun _ => Security.JwtOutcome.ok [("exp", Security.JsonVal.num 99)])
      "token").1 [("exp", Security.JsonVal.num 99)] rfl (by decide)

/-- **C4 (code bug).** The downgrade/same-plan Conflict rejections of
`/users/upgrade-plan` are dead code: after the valid-plans check the
handler reads `current_user.plan` (line 360), an attribute `models.User`
does not declare (the column is `plan_type`), so every request naming a
valid plan dies with an uncaught `AttributeError` (HTTP 500) before any
level comparison; only the invalid-plan rejection is reachable.  No path
ever mutates the user's row, and neither Conflict rejection ever
occurs. -/
theorem c4_upgrade_plan_attribute_error (user : AuthSvc.UserRow)
    (newPlan : String) :
    (newPlan ∈ UsersApi.valid_plans →
      UsersApi.upgrade_user_plan user newPlan =
        (user, UsersApi.UpgradeOutcome.attributeError "plan")) ∧
    (newPlan ∉ UsersApi.valid_plans →
      UsersApi.upgrade_user_plan user newPlan =
        (user, UsersApi.UpgradeOutcome.errInvalidPlan)) ∧
    (UsersApi.upgrade_user_plan user newPlan).1 = user ∧
    (UsersApi.upgrade_user_plan user newPlan).2 ≠
      UsersApi.UpgradeOutcome.errDowngrade ∧
    (UsersApi.upgrade_user_plan user newPlan).2 ≠
      UsersApi.UpgradeOutcome.errSamePlan := by
  have hattr : UsersApi.userGetAttr user "plan" = none := by
    simp [UsersApi.userGetAttr]
  by_cases hvalid : newPlan ∈ UsersApi.valid_plans
  · refine ⟨fun _ => ?_, fun h => absurd hvalid h, ?_, ?_, ?_⟩ <;>
      simp [UsersApi.upgrade_user_plan, hvalid, hattr]
  · refine ⟨fun h => absurd h hvalid, fun _ => ?_, ?_, ?_, ?_⟩ <;>
      simp [UsersApi.upgrade_user_plan, hvalid]

/-- Witness for C4: a free-plan user requesting the valid plan `basic`
hits the `AttributeError`; requesting the unknown plan `gold` is
rejected as an invalid plan.  Neither touches the row. -/
theorem c4_upgrade_plan_attribute_error_witness :
    UsersApi.upgrade_user_plan
      { id := 1, username := "bob".toList, email := "b@b.cc".toList,
        hashed_password := "x", plan_type := "free", api_quota := 100,
        is_active := true, is_admin := false } "basic" =
      ({ id := 1, username := "bob".toList, email := "b@b.cc".toList,
         hashed_password := "x", plan_type := "free", api_quota := 100,
         is_active := true, is_admin := false },
       UsersApi.UpgradeOutcome.attributeError "plan") ∧
    UsersApi.upgrade_user_plan
      { id := 1, username := "bob".toList, email := "b@b.cc".toList,
        hashed_password := "x", plan_type := "free", api_quota := 100,
        is_active := true, is_admin := false } "gold" =
      ({ id := 1, username := "bob".toList, email := "b@b.cc".toList,
         hashed_password := "x", plan_type := "free", api_quota := 100,
         is_active := true, is_admin := false },
       UsersApi.UpgradeOutcome.errInvalidPlan) :=
  ⟨(c4_upgrade_plan_attribute_error
      { id := 1, username := "bob".toList, email := "b@b.cc".toList,
        hashed_password := "x", plan_type := "free", api_quota := 100,
        is_active := true, is_admin := false } "basic").1 (by decide),
   (c4_upgrade_plan_attribute_error
      { id := 1, username := "bob".toList, email := "b@b.cc".toList,
        hashed_password := "x", plan_type := "free", api_quota := 100,
        is_active := true, is_admin := false } "gold").2.1 (by decide)⟩

/-- **C8 (code bug).** A cancellation request (`cancel_ocr_task`)
against an `OCRTask` in any terminal state (`completed`, `failed`,
`cancelled`) is indeed rejected with the Conflict-kind error — that
guard comes first and the row is left unchanged — but cancellation of a
`pending` or `processing` task never reaches `task.status = "cancelled"`:
the source first evaluates `if task.celery_task_id:` (line 329), an
attribute `models.OCRTask` does not declare, so it raises
`AttributeError` and writes nothing. -/
theorem c8_cancel_attribute_error (t : OCRTasks.OCRTaskRow) :
    (t.status ∈ ["completed", "failed", "cancelled"] →
      OCRTasks.cancel_ocr_task (some t) =
        (some t, OCRTasks.CancelOutcome.errTerminal)) ∧
    (t.status = "pending" ∨ t.status = "processing" →
      OCRTasks.cancel_ocr_task (some t) =
        (some t, OCRTasks.CancelOutcome.attributeError "celery_task_id")) := by
  have hattr : OCRTasks.taskGetAttr t "celery_task_id" = none := by
    simp [OCRTasks.taskGetAttr]
  constructor
  · intro hterm
    simp [OCRTasks.cancel_ocr_task, hterm]
  · intro hlive
    rcases hlive with h | h <;> simp [OCRTasks.cancel_ocr_task, h, hattr]

/-- Witness for C8: a concrete `completed` task is rejected untouched; a
concrete `pending` task hits the `AttributeError` with no write. -/
theorem c8_cancel_attribute_error_witness :
    OCRTasks.cancel_ocr_task
      (some { id := 1, file_id := 3, engine_type := "tesseract",
              language := "chi_sim+eng", status := "completed",
              priority := 0, progress := 100, start_time := some 2,
              end_time := some 5, processing_time := some 3,
              error_message := none, cost := 0, options := none }) =
      (some { id := 1, file_id := 3, engine_type := "tesseract",
              language := "chi_sim+eng", status := "completed",
              priority := 0, progress := 100, start_time := some 2,
              end_time := some 5, processing_time := some 3,
              error_message := none, cost := 0, options := none },
       OCRTasks.CancelOutcome.errTerminal) ∧
    OCRTasks.cancel_ocr_task
      (some { id := 2, file_id := 4, engine_type := "tesseract",
              language := "chi_sim+eng", status := "pending",
              priority := 0, progress := 0, start_time := none,
              end_time := none, processing_time := none,
              error_message := none, cost := 0, options := none }) =
      (some { id := 2, file_id := 4, engine_type := "tesseract",
              language := "chi_sim+eng", status := "pending",
              priority := 0, progress := 0, start_time := none,
              end_time := none, processing_time := none,
              error_message := none, cost := 0, options := none },
       OCRTasks.CancelOutcome.attributeError "celery_task_id") :=
  ⟨(c8_cancel_attribute_error
      { id := 1, file_id := 3, engine_type := "tesseract",
        language := "chi_sim+eng", status := "completed",
        priority := 0, progress := 100, start_time := some 2,
        end_time := some 5, processing_time := some 3,
        error_message := none, cost := 0, options := none }).1 (by decide),
   (c8_cancel_attribute_error
      { id := 2, file_id := 4, engine_type := "tesseract",
        language := "chi_sim+eng", status := "pending",
        priority := 0, progress := 0, start_time := none,
        end_time := none, processing_time := none,
        error_message := none, cost := 0, options := none }).2 (Or.inl rfl)⟩

/-- **C1 (code bug).** The engine-selection fallback of `_select_engine`
never selects an engine: `for engine in OCR_ENGINE_PRIORITY:` iterates
the priority **dict's keys** (`free`, `premium`, `auto`), none of which
is ever a registered engine name, so with no (or a dead) preference the
call raises `"没有可用的OCR引擎"` even when every engine in the registry
is live.  A live preference is still honoured. -/
theorem c1_select_engine_fallback_dead :
    OCRSvc.select_engine none ["tesseract", "paddleocr", "easyocr"] =
      Except.error "没有可用的OCR引擎" ∧
    OCRSvc.select_engine none OCRSvc.registryNames =
      Except.error "没有可用的OCR引擎" ∧
    OCRSvc.select_engine (some "baidu") ["baidu", "tesseract"] =
      Except.ok "baidu" := by
  refine ⟨rfl, rfl, rfl⟩

/-- Any allowed-extension content over the 50 MiB cap is rejected with
code `FILE_TOO_LARGE`. -/
theorem validate_file_too_large (ext : String) (c : FileSvc.Bytes)
    (hmem : ext ∈ Config.allowed_extensions)
    (hbig : c.length > Config.max_file_size) :
    FileSvc.validate_file ext c =
      FileSvc.FileValidation.invalid "文件大小超过限制: 50.0MB"
        "FILE_TOO_LARGE" := by
  simp [FileSvc.validate_file, hmem, hbig]

/-- **C5 counterexample.** A byte string whose first four bytes are
`%PDF` but whose length exceeds the 50 MiB cap is rejected (with code
`FILE_TOO_LARGE`) by validation with extension `.pdf`, refuting the
claim's unqualified "for any byte string whose first four bytes are
`%PDF`, validation with extension `.pdf` succeeds". -/
theorem c5_oversized_pdf_rejected :
    FileSvc.pdfMagic.isPrefixOf FileSvc.oversizedPdf = true ∧
    FileSvc.validate_file ".pdf" FileSvc.oversizedPdf =
      FileSvc.FileValidation.invalid "文件大小超过限制: 50.0MB"
        "FILE_TOO_LARGE" := by
  have hlen : FileSvc.oversizedPdf.length = Config.max_file_size + 1 := by
    simp only [FileSvc.oversizedPdf, List.length_append, List.length_replicate]
    decide
  constructor
  · rw [List.isPrefixOf_iff_prefix]
    exact List.prefix_append _ _
  · exact validate_file_too_large ".pdf" FileSvc.oversizedPdf (by decide)
      (by omega)

/-- **C5 (amended).** File-content validation, for content within the 50
MiB size cap: a byte string led by `%PDF` passes validation under
extension `.pdf` and fails under `.png` with code
`INVALID_FILE_CONTENT`; any content shorter than 4 bytes fails content
validation regardless of extension; and content of at least 4 bytes
whose extension has no magic-number table entry passes content
validation. -/
theorem c5_magic_number_validation (rest : FileSvc.Bytes) :
    (4 + rest.length ≤ Config.max_file_size →
      FileSvc.validate_file ".pdf" (FileSvc.pdfMagic ++ rest) =
        FileSvc.FileValidation.valid) ∧
    (4 + rest.length ≤ Config.max_file_size →
      FileSvc.validate_file ".png" (FileSvc.pdfMagic ++ rest) =
        FileSvc.FileValidation.invalid "文件内容与扩展名不匹配"
          "INVALID_FILE_CONTENT") ∧
    (∀ (ext : String) (c : FileSvc.Bytes), c.length < 4 →
      FileSvc.validate_file_content c ext = false) ∧
    (∀ (ext : String) (c : FileSvc.Bytes),
      FileSvc.magic_numbers.lookup ext = none → 4 ≤ c.length →
      FileSvc.validate_file_content c ext = true) := by
  have h4 : FileSvc.pdfMagic.length = 4 := rfl
  have hlen : (FileSvc.pdfMagic ++ rest).length = 4 + rest.length := by
    rw [List.length_append, h4]
  have hshort : ¬ ((FileSvc.pdfMagic ++ rest).length < 4) := by omega
  refine ⟨?_, ?_, ?_, ?_⟩
  · intro hsize
    have hmem : (".pdf" ∈ Config.allowed_extensions) := by decide
    have hbig : ¬ ((FileSvc.pdfMagic ++ rest).length > Config.max_file_size) := by
      omega
    have hlk : FileSvc.magic_numbers.lookup ".pdf" =
        some [[0x25, 0x50, 0x44, 0x46]] := rfl
    have hpre : FileSvc.pdfMagic.isPrefixOf (FileSvc.pdfMagic ++ rest) = true := by
      rw [List.isPrefixOf_iff_prefix]
      exact List.prefix_append _ _
    have hcontent : FileSvc.validate_file_content (FileSvc.pdfMagic ++ rest)
        ".pdf" = true := by
      rw [FileSvc.validate_file_content, if_neg hshort, hlk]
      simp only [List.any_cons, List.any_nil, Bool.or_false]
      exact hpre
    rw [FileSvc.validate_file, if_neg (by simp [hmem]), if_neg hbig]
    rw [hcontent]
    simp
  · intro hsize
    have hmem : (".png" ∈ Config.allowed_extensions) := by decide
    have hbig : ¬ ((FileSvc.pdfMagic ++ rest).length > Config.max_file_size) := by
      omega
    have hlk : FileSvc.magic_numbers.lookup ".png" =
        some [[0x89, 0x50, 0x4E, 0x47]] := rfl
    have hpre : ([0x89, 0x50, 0x4E, 0x47] : FileSvc.Bytes).isPrefixOf
        (FileSvc.pdfMagic ++ rest) = false := by
      show ([0x89, 0x50, 0x4E, 0x47] : FileSvc.Bytes).isPrefixOf
        (0x25 :: 0x50 :: 0x44 :: 0x46 :: rest) = false
      simp [List.isPrefixOf]
    have hcontent : FileSvc.validate_file_content (FileSvc.pdfMagic ++ rest)
        ".png" = false := by
      rw [FileSvc.validate_file_content, if_neg hshort, hlk]
      simp only [List.any_cons, List.any_nil, Bool.or_false]
      exact hpre
    rw [FileSvc.validate_file, if_neg (by simp [hmem]), if_neg hbig]
    rw [if_pos (by simp [hcontent])]
  · intro ext c h
    simp [FileSvc.validate_file_content, h]
  · intro ext c hlk hge
    simp [FileSvc.validate_file_content, hlk, Nat.not_lt.mpr hge]

/-- Witness for C5: the four bytes `%PDF` alone validate as `.pdf`, fail
as `.png` with `INVALID_FILE_CONTENT`; a 3-byte content fails content
validation under `.pdf`; a 4-byte content with the unlisted extension
`.txt` passes content validation. -/
theorem c5_magic_number_validation_witness :
    FileSvc.validate_file ".pdf" (FileSvc.pdfMagic ++ []) =
      FileSvc.FileValidation.valid ∧
    FileSvc.validate_file ".png" (FileSvc.pdfMagic ++ []) =
      FileSvc.FileValidation.invalid "文件内容与扩展名不匹配"
        "INVALID_FILE_CONTENT" ∧
    FileSvc.validate_file_content [0x25, 0x50, 0x44] ".pdf" = false ∧
    FileSvc.validate_file_content [0x25, 0x50, 0x44, 0x46] ".txt" = true :=
  ⟨(c5_magic_number_validation []).1 (by decide),
   (c5_magic_number_validation []).2.1 (by decide),
   (c5_magic_number_validation []).2.2.1 ".pdf" [0x25, 0x50, 0x44] (by decide),
   (c5_magic_number_validation []).2.2.2 ".txt" [0x25, 0x50, 0x44, 0x46]
     rfl (by decide)⟩

/-- Reduction of `save_uploaded_file` when validation passes and no row
matches `(user_id, file_hash)`: the bytes are written to the per-user
directory and a fresh row is inserted. -/
theorem save_uploaded_file_fresh (hashFn : FileSvc.Bytes → String)
    (cleanName freshName ext : String) (st : FileSvc.UploadState)
    (u : Nat) (c : FileSvc.Bytes)
    (hvalid : FileSvc.validate_file ext c = FileSvc.FileValidation.valid)
    (hfind : st.db.find?
      (fun f => f.user_id == u && f.file_hash == hashFn c) = none) :
    FileSvc.save_uploaded_file hashFn cleanName freshName ext st u c =
      ({ db := st.db ++
            [{ id := st.db.length + 1, user_id := u, filename := freshName,
               original_filename := cleanName,
               file_path := "user_" ++ toString u ++ "/" ++ freshName,
               file_size := c.length, file_type := FileSvc.get_file_type ext,
               mime_type := FileSvc.get_mime_type ext,
               file_hash := hashFn c, status := "uploaded" }],
         disk := st.disk ++ [("user_" ++ toString u ++ "/" ++ freshName, c)] },
       Except.ok
         { id := st.db.length + 1, user_id := u, filename := freshName,
           original_filename := cleanName,
           file_path := "user_" ++ toString u ++ "/" ++ freshName,
           file_size := c.length, file_type := FileSvc.get_file_type ext,
           mime_type := FileSvc.get_mime_type ext,
           file_hash := hashFn c, status := "uploaded" }) := by
  rw [FileSvc.save_uploaded_file, hvalid]
  simp [hfind]

/-- Reduction of `save_uploaded_file` when validation passes and a row
already matches `(user_id, file_hash)`: the existing row is returned,
with no database insert and no disk write. -/
theorem save_uploaded_file_dup (hashFn : FileSvc.Bytes → String)
    (cleanName freshName ext : String) (st : FileSvc.UploadState)
    (u : Nat) (c : FileSvc.Bytes) (f0 : FileSvc.FileRow)
    (hvalid : FileSvc.validate_file ext c = FileSvc.FileValidation.valid)
    (hfind : st.db.find?
      (fun f => f.user_id == u && f.file_hash == hashFn c) = some f0) :
    FileSvc.save_uploaded_file hashFn cleanName freshName ext st u c =
      (st, Except.ok f0) := by
  rw [FileSvc.save_uploaded_file, hvalid]
  simp [hfind]

/-- **C6.** Upload deduplication: starting from an empty store, saving a
valid byte content for user `u` creates one `File` row; saving the same
content again for `u` returns that existing row and leaves both the
`File` table and the disk untouched (exactly one row); saving the same
content as a different user `u2` creates a second, distinct row owned by
`u2`. -/
theorem c6_upload_dedup (hashFn : FileSvc.Bytes → String)
    (cleanName n1 n2 n3 ext : String) (u u2 : Nat) (c : FileSvc.Bytes)
    (hvalid : FileSvc.validate_file ext c = FileSvc.FileValidation.valid)
    (hne : u ≠ u2) :
    ∃ (st1 : FileSvc.UploadState) (row1 : FileSvc.FileRow),
      FileSvc.save_uploaded_file hashFn cleanName n1 ext ⟨[], []⟩ u c =
        (st1, Except.ok row1) ∧
      st1.db = [row1] ∧ row1.user_id = u ∧ row1.file_hash = hashFn c ∧
      FileSvc.save_uploaded_file hashFn cleanName n2 ext st1 u c =
        (st1, Except.ok row1) ∧
      ∃ (st2 : FileSvc.UploadState) (row2 : FileSvc.FileRow),
        FileSvc.save_uploaded_file hashFn cleanName n3 ext st1 u2 c =
          (st2, Except.ok row2) ∧
        st2.db = [row1, row2] ∧ st2.disk.length = st1.disk.length + 1 ∧
        row2.user_id = u2 ∧ row2.id ≠ row1.id := by
  have h1 := save_uploaded_file_fresh hashFn cleanName n1 ext ⟨[], []⟩ u c
    hvalid rfl
  simp only [List.nil_append, List.length_nil, Nat.zero_add] at h1
  refine ⟨_, _, h1, rfl, rfl, rfl, ?_, ?_⟩
  · refine save_uploaded_file_dup hashFn cleanName n2 ext _ u c _ hvalid ?_
    simp [List.find?]
  · have hfind2 : (FileSvc.UploadState.db
        { db := [{ id := 1, user_id := u, filename := n1,
                   original_filename := cleanName,
                   file_path := "user_" ++ toString u ++ "/" ++ n1,
                   file_size := c.length,
                   file_type := FileSvc.get_file_type ext,
                   mime_type := FileSvc.get_mime_type ext,
                   file_hash := hashFn c, status := "uploaded" }],
          disk := [("user_" ++ toString u ++ "/" ++ n1, c)] }).find?
        (fun f => f.user_id == u2 && f.file_hash == hashFn c) = none := by
      have hbeq : (u == u2) = false := beq_eq_false_iff_ne.mpr hne
      simp [List.find?, hbeq]
    have h3 := save_uploaded_file_fresh hashFn cleanName n3 ext _ u2 c
      hvalid hfind2
    refine ⟨_, _, h3, by simp, by simp, rfl, by simp⟩

/-- Witness for C6: a concrete 4-byte PDF saved twice for user 1 and once
for user 2, with a concrete hash function. -/
theorem c6_upload_dedup_witness :
    ∃ (st1 : FileSvc.UploadState) (row1 : FileSvc.FileRow),
      FileSvc.save_uploaded_file (fun _ => "h") "doc.pdf" "a.pdf" ".pdf"
          ⟨[], []⟩ 1 FileSvc.pdfMagic = (st1, Except.ok row1) ∧
      st1.db = [row1] ∧ row1.user_id = 1 ∧
        row1.file_hash = (fun (_ : FileSvc.Bytes) => "h") FileSvc.pdfMagic ∧
      FileSvc.save_uploaded_file (fun _ => "h") "doc.pdf" "b.pdf" ".pdf"
          st1 1 FileSvc.pdfMagic = (st1, Except.ok row1) ∧
      ∃ (st2 : FileSvc.UploadState) (row2 : FileSvc.FileRow),
        FileSvc.save_uploaded_file (fun _ => "h") "doc.pdf" "c.pdf" ".pdf"
            st1 2 FileSvc.pdfMagic = (st2, Except.ok row2) ∧
        st2.db = [row1, row2] ∧ st2.disk.length = st1.disk.length + 1 ∧
        row2.user_id = 2 ∧ row2.id ≠ row1.id :=
  c6_upload_dedup (fun _ => "h") "doc.pdf" "a.pdf" "b.pdf" "c.pdf" ".pdf"
    1 2 FileSvc.pdfMagic (by decide) (by decide)

/-- **C3 (code bug).** Running the administrator bootstrap against a
store with no user named `admin` never creates the admin account: the
fixed default password `123456` fails `validate_password_strength`
(length 6 < 8), so `register_user` raises and the store is left empty —
while promoting an existing non-admin `admin` user in place does work. -/
theorem c3_init_admin_password_rejected (hashFn : List Char → String) :
    AuthSvc.init_admin_user hashFn [] =
      ([], Except.error "密码强度不够，至少8位且包含大小写字母、数字、特殊字符中的3种") ∧
    AuthSvc.init_admin_user hashFn
      [{ id := 1, username := "admin".toList, email := "a@b.cc".toList,
         hashed_password := "x", plan_type := "free", api_quota := 100,
         is_active := true, is_admin := false }] =
      ([{ id := 1, username := "admin".toList, email := "a@b.cc".toList,
          hashed_password := "x", plan_type := "free", api_quota := 100,
          is_active := true, is_admin := true }],
       Except.ok
        { id := 1, username := "admin".toList, email := "a@b.cc".toList,
          hashed_password := "x", plan_type := "free", api_quota := 100,
          is_active := true, is_admin := true }) := by
  constructor
  · rfl
  · rfl

/-- **C7 (code bug).** The quota-rollover job `update_user_quotas` never
resets any quota: its loop body reads `quota.last_reset_date`, an
attribute the `UserQuota` model does not declare, so the first row
raises `AttributeError`, the transaction rolls back, and every row —
`quota_used` and `reset_time` included — is left exactly as loaded,
whatever the wall-clock date. -/
theorem c7_quota_rollover_attribute_error (today firstOfMonth : Int)
    (q : StatsTasks.UserQuota) (rest : List StatsTasks.UserQuota) :
    StatsTasks.update_user_quotas today firstOfMonth (q :: rest) =
      (q :: rest, StatsTasks.QuotaJobResult.error
        "AttributeError: last_reset_date") := by
  have hattr : StatsTasks.quotaGetAttr q "last_reset_date" = none := by
    simp [StatsTasks.quotaGetAttr]
  simp [StatsTasks.update_user_quotas, StatsTasks.updateQuotaLoop,
    StatsTasks.updateQuotaStep, hattr]
